import Mathlib

/-!
Verification of the PrismaStack CLI chat client (package `tui`).

The definitions below are a shallow embedding of `src/tui/client.go` and
`src/tui/ui.go`: the server data models, the Bubble Tea reducer
`model.Update` restricted to the session state it mutates (view state,
last error, channel list, per-channel message buffers, online-user set,
active tab index), the history loader `ApiClient.GetMessages`, the
websocket URL construction in `ApiClient.ConnectAndListen`, the request
body of `ApiClient.SendMessage`, and the success/failure behaviour of
`ApiClient.Login`.  Machine integers (`int64`, `int`) are modelled as
`Int`; Go's truncated `%` is `Int.tmod`.  Go maps keyed by `int64` are
modelled as functions `Int → Option _`; the `map[string]bool` presence
set is a `Finset String`.
-/

namespace PrismaCLI

/-- Embeds `type User` of client.go: id, username, role, avatar URL. -/
structure User where
  id : Int
  username : String
  role : String
  avatarURL : String
deriving DecidableEq, Repr

/-- Embeds `type Channel` of client.go: id, name, owning category, position. -/
structure Channel where
  id : Int
  name : String
  categoryID : Int
  position : Int
deriving DecidableEq, Repr

/-- Embeds `type ChannelCategory` of client.go with its nested channels. -/
structure ChannelCategory where
  id : Int
  name : String
  position : Int
  channels : List Channel
deriving DecidableEq, Repr

/-- Embeds `type Message` of client.go; `time.Time` is abstracted to an
integer timestamp (its value is never computed with by the reducer). -/
structure Message where
  id : Int
  channelID : Int
  userID : Int
  username : String
  content : String
  createdAt : Int
  avatarURL : String
deriving DecidableEq, Repr

/-- The result of `json.Unmarshal` on a frame's raw payload: it decodes
as a `Message`, as a `[]User`, or fails.  This models
`json.RawMessage` together with the two unmarshal attempts made by the
reducer's `wsMsg` case. -/
inductive WsPayload where
  | message (m : Message)
  | userList (us : List User)
  | undecodable
deriving DecidableEq, Repr

/-- Embeds `type WebSocketMessage`: an event tag plus an opaque payload. -/
structure WsFrame where
  event : String
  payload : WsPayload
deriving DecidableEq, Repr

/-- Models `json.Unmarshal(payload, &newMsg)` in the `new_message`
branch: succeeds exactly when the payload is a message object. -/
def decodeMessage : WsPayload → Option Message
  | WsPayload.message m => some m
  | _ => none

/-- Models `json.Unmarshal(payload, &users)` in the `presence_update`
branch: succeeds exactly when the payload is a user list. -/
def decodeUsers : WsPayload → Option (List User)
  | WsPayload.userList us => some us
  | _ => none

/-- Embeds `type viewState` (`stateLoading`, `stateChatting`, `stateError`). -/
inductive ViewState where
  | loading
  | chatting
  | error
deriving DecidableEq, Repr

/-- The key messages handled by `model.Update`'s `tea.KeyMsg` case that
touch session state.  `enter` carries the current text-input value and
the outcome of the synchronous `SendMessage` call (`none` on success,
the error text on failure); `other` stands for every remaining key,
which only feeds the text-input widget. -/
inductive Key where
  | ctrlC
  | esc
  | tab
  | shiftTab
  | enter (input : String) (sendErr : Option String)
  | other
deriving DecidableEq, Repr

/-- The `tea.Msg` values consumed by `model.Update` that can touch the
session state: topology result, history result, websocket frame, key
input, and the error message. -/
inductive Event where
  | initialDataLoaded (cats : List ChannelCategory)
  | historyLoaded (channelID : Int) (msgs : List Message)
  | ws (frame : WsFrame)
  | key (k : Key)
  | errOccurred (e : String)
deriving DecidableEq, Repr

/-- Follow-up commands produced by the reducer (`tea.Cmd` values that
matter to the session: `fetchHistoryCmd`, the send request issued from
the Enter branch, and `tea.Quit`). -/
inductive Cmd where
  | fetchHistory (channelID : Int)
  | send (channelID : Int) (content : String)
  | quit
deriving DecidableEq, Repr

/-- The session-state projection of `type model` in ui.go: `state`,
`err`, `channels`, `messages`, `onlineUsers`, `activeTabIndex`.  The
purely visual fields (`textInput`, `width`, `height`, viewport) are out
of scope per the spec and are not session state. -/
structure Model where
  state : ViewState
  err : Option String
  channels : List Channel
  messages : Int → Option (List Message)
  onlineUsers : Finset String
  activeTabIndex : Int

/-- Embeds `InitialModel`: loading state, empty buffers, index 0. -/
def initialModel : Model :=
  { state := ViewState.loading
    err := none
    channels := []
    messages := fun _ => none
    onlineUsers := ∅
    activeTabIndex := 0 }

/-- Models the Go map store `m.messages[k] = v`. -/
def mapSet (mp : Int → Option (List Message)) (k : Int) (v : List Message) :
    Int → Option (List Message) :=
  fun k2 => if k2 = k then some v else mp k2

/-- The channel ordering used by `sort.SliceStable` in the
`initialDataLoadedMsg` case: ascending `Position`. -/
def posLE (a b : Channel) : Prop := a.position ≤ b.position

instance : DecidableRel posLE := fun a b => Int.decLe a.position b.position

instance : IsTotal Channel posLE := ⟨fun a b => Int.le_total a.position b.position⟩

instance : IsTrans Channel posLE := ⟨fun _ _ _ => Int.le_trans⟩

/-- Embeds `sort.SliceStable(m.channels, less-by-Position)`: Go
guarantees a stable sort (equal keys keep their original relative
order); insertion sort with the non-strict key order is that stable
sort. -/
def sortChannels (l : List Channel) : List Channel :=
  List.insertionSort posLE l

/-- The `for _, cat := range msg.cats \x7b m.channels = append(...) \x7d`
loop: concatenation of the categories' channel lists in received order. -/
def flattenCats : List ChannelCategory → List Channel
  | [] => []
  | c :: cs => c.channels ++ flattenCats cs

/-- The error recorded when the flattened channel list is empty
(ui.go `initialDataLoadedMsg` case). -/
def noChannelsErr : String := "no channels found on server"

/-- Shallow embedding of `model.Update` (ui.go), restricted to the
session state and the session-relevant commands.  Each match arm mirrors
one `case` of the Go switch; `textInput.Update` is outside the session
state and omitted. -/
def update (m : Model) (e : Event) : Model × List Cmd :=
  match e with
  | Event.key k =>
    match k with
    | Key.ctrlC => (m, [Cmd.quit])
    | Key.esc => (m, [Cmd.quit])
    | Key.tab =>
      if m.channels = [] then (m, [])
      else
        let idx := (m.activeTabIndex + 1).tmod (m.channels.length : Int)
        let m2 := { m with activeTabIndex := idx }
        match m.channels[idx.toNat]? with
        | none => (m2, [])
        | some ch =>
          if (m.messages ch.id).isNone then (m2, [Cmd.fetchHistory ch.id])
          else (m2, [])
    | Key.shiftTab =>
      if m.channels = [] then (m, [])
      else
        let dec := m.activeTabIndex - 1
        let idx := if dec < 0 then (m.channels.length : Int) - 1 else dec
        let m2 := { m with activeTabIndex := idx }
        match m.channels[idx.toNat]? with
        | none => (m2, [])
        | some ch =>
          if (m.messages ch.id).isNone then (m2, [Cmd.fetchHistory ch.id])
          else (m2, [])
    | Key.enter input sendErr =>
      let content := input.trim
      if content ≠ "" ∧ m.channels ≠ [] then
        match m.channels[m.activeTabIndex.toNat]? with
        | none => (m, [])
        | some ch =>
          match sendErr with
          | some e2 =>
            ({ m with err := some ("send failed: " ++ e2) }, [Cmd.send ch.id content])
          | none => (m, [Cmd.send ch.id content])
      else (m, [])
    | Key.other => (m, [])
  | Event.initialDataLoaded cats =>
    match sortChannels (m.channels ++ flattenCats cats) with
    | [] =>
      ({ m with state := ViewState.error, channels := [], err := some noChannelsErr }, [])
    | c0 :: rest =>
      ({ m with state := ViewState.chatting, channels := c0 :: rest },
        [Cmd.fetchHistory c0.id])
  | Event.historyLoaded cid msgs =>
    ({ m with messages := mapSet m.messages cid msgs }, [])
  | Event.ws f =>
    if f.event = "new_message" then
      match decodeMessage f.payload with
      | none => (m, [])
      | some nm =>
        ({ m with
            messages :=
              mapSet m.messages nm.channelID
                (((m.messages nm.channelID).getD []) ++ [nm]) }, [])
    else if f.event = "presence_update" then
      match decodeUsers f.payload with
      | none => (m, [])
      | some us =>
        ({ m with onlineUsers := (us.map (fun u => u.username)).toFinset }, [])
    else (m, [])
  | Event.errOccurred e2 =>
    ({ m with err := some e2, state := ViewState.error }, [])

/-- Embeds the `ApiClient.GetMessages` success path: the two-pointer
swap loop (client.go lines 121-123) reverses the server's newest-first
list to oldest-first before delivering it. -/
def getMessages (serverMsgs : List Message) : List Message :=
  serverMsgs.reverse

/-- The websocket connection target built by `ApiClient.ConnectAndListen`
from the parsed base URL components and the logged-in user: scheme
upgrade, default-port normalisation, path `/api/ws`, and the query
produced by `q.Set("user_id", ...)`. -/
structure WsTarget where
  scheme : String
  host : String
  path : String
  query : List (String × String)
deriving DecidableEq, Repr

/-- Embeds the URL computation of `ApiClient.ConnectAndListen`
(client.go lines 155-176).  `port` is `u.Port()` (none when the base
URL has no explicit port); `host` is hostname plus the retained port. -/
def connectURL (schemeIn : String) (hostname : String) (port : Option String)
    (userID : Int) : WsTarget :=
  let ws := if schemeIn = "https" then "wss" else "ws"
  let host :=
    match port with
    | none => hostname
    | some p =>
      if (ws = "ws" ∧ p = "80") ∨ (ws = "wss" ∧ p = "443") then hostname
      else hostname ++ ":" ++ p
  { scheme := ws
    host := host
    path := "/api/ws"
    query := [("user_id", toString userID)] }

/-- A JSON field value in a request body. -/
inductive FieldVal where
  | int (i : Int)
  | str (s : String)
deriving DecidableEq, Repr

/-- The request body marshalled by `ApiClient.SendMessage`: the map
literal with keys `channel_id`, `user_id`, `content` (client.go lines
128-132), listed in source order (the Go value is a map, so only the
field set is meaningful). -/
def sendMessageBody (channelID userID : Int) (content : String) :
    List (String × FieldVal) :=
  [("channel_id", FieldVal.int channelID),
   ("user_id", FieldVal.int userID),
   ("content", FieldVal.str content)]

/-- The environment's response to the login POST: the request itself
fails (transport or request-construction error), or a response arrives
with a status code and a body whose decode as `User` succeeds or fails. -/
inductive LoginOutcome where
  | requestFailed (e : String)
  | response (status : Int) (body : Option User)
deriving DecidableEq, Repr

/-- Embeds `ApiClient.Login` (client.go lines 70-95) as a function of
the previous `c.User` and the environment's outcome; returns the new
`c.User` and `none` for a nil error or `some s` for an error with text
`s`.  `c.User` is assigned only after a 200 status and a successful
body decode. -/
def login (prevUser : Option User) (r : LoginOutcome) :
    Option User × Option String :=
  match r with
  | LoginOutcome.requestFailed e => (prevUser, some e)
  | LoginOutcome.response status body =>
    if status = 200 then
      match body with
      | none => (prevUser, some "decode error")
      | some u => (some u, none)
    else (prevUser, some ("login failed with status: " ++ toString status))

/-! ### Concrete sample data used by witnesses and counterexamples -/

/-- Sample message with id 1 (oldest in the history example). -/
def msg1c : Message :=
  { id := 1, channelID := 7, userID := 3, username := "alice"
    content := "first", createdAt := 10, avatarURL := "" }

/-- Sample message with id 2. -/
def msg2c : Message :=
  { id := 2, channelID := 7, userID := 4, username := "bob"
    content := "second", createdAt := 20, avatarURL := "" }

/-- Sample message with id 3 (newest in the history example). -/
def msg3c : Message :=
  { id := 3, channelID := 7, userID := 3, username := "alice"
    content := "third", createdAt := 30, avatarURL := "" }

/-- Sample user used by the login witness. -/
def exUser : User :=
  { id := 5, username := "alice", role := "member", avatarURL := "" }

/-! ### C3 — websocket connection credential -/

/-- C3 counterexample: at the repository's own base URL
(`https://chat.sarahsforge.dev:443`) and user id 5, the websocket URL
built by `ConnectAndListen` carries the query `user_id=5` and has no
`token` parameter at all, so the URL does not have the form
`/api/ws?token=...` claimed by the spec. -/
theorem connectURL_no_token_cex :
    (connectURL "https" "chat.sarahsforge.dev" (some "443") 5).query
        = [("user_id", "5")] ∧
    "token" ∉
      ((connectURL "https" "chat.sarahsforge.dev" (some "443") 5).query.map
        Prod.fst) := by
  constructor
  · rfl
  · simp [connectURL]

/-- C3 (amended): for every base-URL scheme, host, port and logged-in
user, the connection target built by `ConnectAndListen` has path
`/api/ws` and exactly the single query parameter `user_id` carrying the
user's numeric id; no `token` parameter appears (the client holds no
session token). -/
theorem connectURL_user_id_query (schemeIn hostname : String)
    (port : Option String) (userID : Int) :
    (connectURL schemeIn hostname port userID).path = "/api/ws" ∧
    (connectURL schemeIn hostname port userID).query
        = [("user_id", toString userID)] ∧
    "token" ∉
      ((connectURL schemeIn hostname port userID).query.map Prod.fst) := by
  refine ⟨rfl, rfl, ?_⟩
  simp [connectURL]

/-! ### C4 — history-load reversal -/

/-- C4: the history loader delivers exactly the server's messages in
reversed order — same length, the i-th delivered message is the
(n−1−i)-th server message, and the concrete server response
`[m3, m2, m1]` is delivered as `[m1, m2, m3]`. -/
theorem getMessages_reverses (s : List Message) (i : Nat) (h : i < s.length) :
    (getMessages s).length = s.length ∧
    (getMessages s)[i]? = s[s.length - 1 - i]? ∧
    getMessages [msg3c, msg2c, msg1c] = [msg1c, msg2c, msg3c] := by
  refine ⟨by simp [getMessages], ?_, rfl⟩
  have h1 : i < (getMessages s).length := by simpa [getMessages] using h
  have h2 : s.length - 1 - i < s.length := by omega
  rw [List.getElem?_eq_getElem h1, List.getElem?_eq_getElem h2]
  simp [getMessages, List.getElem_reverse]

/-- C4 witness: instantiated at the concrete newest-first response
`[msg3c, msg2c, msg1c]` and index 0. -/
theorem getMessages_reverses_witness :
    getMessages [msg3c, msg2c, msg1c] = [msg1c, msg2c, msg3c] :=
  (getMessages_reverses [msg3c, msg2c, msg1c] 0 (by decide)).2.2

/-! ### C5 — send-message request body -/

/-- C5 counterexample: the body sent by `SendMessage` for channel 1,
user 2, content "hi" contains the field `user_id`, which is not among
the two fields `channel_id`, `content` the claim allows. -/
theorem sendMessageBody_user_id_cex :
    "user_id" ∈ (sendMessageBody 1 2 "hi").map Prod.fst ∧
    "user_id" ∉ ["channel_id", "content"] := by
  constructor
  · simp [sendMessageBody]
  · simp

/-- C5 (amended): every send-message request body consists of exactly
the three fields `channel_id`, `user_id`, `content` — the caller's user
id is included in the body in addition to the channel and content. -/
theorem sendMessageBody_fields (channelID userID : Int) (content : String) :
    (sendMessageBody channelID userID content).map Prod.fst
        = ["channel_id", "user_id", "content"] := rfl

/-! ### C10 — login success/failure atomicity -/

/-- C10: `Login` succeeds (returns a nil error) exactly when the
response has status 200 and the body decodes as a user; on success the
stored `User` becomes that decoded user, and on every failure the
error is non-nil and the stored `User` is unchanged. -/
theorem login_atomic (prev : Option User) (r : LoginOutcome) :
    ((login prev r).2 = none ↔ ∃ u, r = LoginOutcome.response 200 (some u)) ∧
    (∀ u, r = LoginOutcome.response 200 (some u) →
      (login prev r).1 = some u) ∧
    ((login prev r).2 ≠ none → (login prev r).1 = prev) := by
  rcases r with e | ⟨status, body⟩
  · simp [login]
  · by_cases hs : status = 200
    · subst hs
      rcases body with _ | u <;> simp [login]
    · rcases body with _ | u <;> simp [login, hs]

/-- C10 witness: a 200 response whose body decodes as `exUser` stores
`exUser` in the client. -/
theorem login_atomic_witness :
    (login none (LoginOutcome.response 200 (some exUser))).1 = some exUser :=
  (login_atomic none (LoginOutcome.response 200 (some exUser))).2.1 exUser rfl

/-! ### C9 — unknown streaming frame tags are no-ops -/

/-- C9: a streaming frame whose event tag is neither `new_message` nor
`presence_update` leaves the whole session state (view state, error,
channels, every message buffer, online users, active index) unchanged
and produces no command — the reducer returns the input model
verbatim. -/
theorem unknown_frame_noop (m : Model) (f : WsFrame)
    (h1 : f.event ≠ "new_message") (h2 : f.event ≠ "presence_update") :
    update m (Event.ws f) = (m, []) := by
  simp [update, h1, h2]

/-- C9 witness: a frame tagged `typing` (as in the spec's example) is
dropped without any state change. -/
theorem unknown_frame_noop_witness :
    update initialModel (Event.ws ⟨"typing", WsPayload.undecodable⟩)
        = (initialModel, []) :=
  unknown_frame_noop initialModel ⟨"typing", WsPayload.undecodable⟩
    (by decide) (by decide)

/-! ### C7 — empty topology goes to the Error state -/

/-- C7: when the topology result flattens to an empty channel list (and
no channels were present before, as in the initial state), the reducer
ends in the Error state, records the cause string
"no channels found on server" — which begins with the spec's quoted
cause "no channels found" — and the resulting state is not Chatting. -/
theorem empty_topology_error (m : Model) (cats : List ChannelCategory)
    (h : m.channels = []) (hflat : flattenCats cats = []) :
    (update m (Event.initialDataLoaded cats)).1.state = ViewState.error ∧
    (update m (Event.initialDataLoaded cats)).1.err = some noChannelsErr ∧
    (∃ tail, noChannelsErr = "no channels found" ++ tail) ∧
    (update m (Event.initialDataLoaded cats)).1.state ≠ ViewState.chatting := by
  have hs : sortChannels (m.channels ++ flattenCats cats) = [] := by
    rw [h, hflat]
    rfl
  refine ⟨?_, ?_, ⟨" on server", rfl⟩, ?_⟩ <;> simp [update, hs]

/-- C7 witness: the empty category list on the initial model. -/
theorem empty_topology_error_witness :
    (update initialModel (Event.initialDataLoaded [])).1.state
        = ViewState.error :=
  (empty_topology_error initialModel [] rfl rfl).1

/-! ### C8 — channel navigation wraps modulo the channel count -/

/-- Sample channels for the tab-wrap examples. -/
def navChan1 : Channel := { id := 21, name := "one", categoryID := 1, position := 0 }

/-- Second sample channel for the tab-wrap examples. -/
def navChan2 : Channel := { id := 22, name := "two", categoryID := 1, position := 1 }

/-- Third sample channel for the tab-wrap examples. -/
def navChan3 : Channel := { id := 23, name := "three", categoryID := 1, position := 2 }

/-- A chatting model with 3 channels and active index 2. -/
def navModel2 : Model :=
  { state := ViewState.chatting
    err := none
    channels := [navChan1, navChan2, navChan3]
    messages := fun _ => none
    onlineUsers := ∅
    activeTabIndex := 2 }

/-- A chatting model with 3 channels and active index 0. -/
def navModel0 : Model :=
  { navModel2 with activeTabIndex := 0 }

/-- C8: with a non-empty channel list and a valid active index, Tab
advances the index to (i+1) mod n and Shift-Tab retreats it to
(i−1) mod n; in particular with 3 channels, next from 2 yields 0 and
previous from 0 yields 2. -/
theorem tab_wraps (m : Model) (h0 : m.channels ≠ [])
    (h1 : 0 ≤ m.activeTabIndex)
    (h2 : m.activeTabIndex < (m.channels.length : Int)) :
    (update m (Event.key Key.tab)).1.activeTabIndex
        = (m.activeTabIndex + 1) % (m.channels.length : Int) ∧
    (update m (Event.key Key.shiftTab)).1.activeTabIndex
        = (m.activeTabIndex - 1) % (m.channels.length : Int) ∧
    (update navModel2 (Event.key Key.tab)).1.activeTabIndex = 0 ∧
    (update navModel0 (Event.key Key.shiftTab)).1.activeTabIndex = 2 := by
  have hn : 0 < (m.channels.length : Int) := by
    have := List.length_pos.mpr h0
    omega
  refine ⟨?_, ?_, by decide, by decide⟩
  · have htm : (m.activeTabIndex + 1).tmod (m.channels.length : Int)
        = (m.activeTabIndex + 1) % (m.channels.length : Int) :=
      Int.tmod_eq_emod (by omega) (by omega)
    simp only [update, if_neg h0]
    rcases hx :
        m.channels[((m.activeTabIndex + 1).tmod
          (m.channels.length : Int)).toNat]? with _ | ch
    · simp [hx, htm]
    · simp only [hx]
      split <;> simp [htm]
  · have hmod : (m.activeTabIndex - 1) % (m.channels.length : Int)
        = if m.activeTabIndex - 1 < 0 then (m.channels.length : Int) - 1
          else m.activeTabIndex - 1 := by
      by_cases hneg : m.activeTabIndex - 1 < 0
      · have hz : m.activeTabIndex = 0 := by omega
        rw [if_pos hneg, hz]
        have : (0 : Int) - 1 = -1 + (m.channels.length : Int) * 0 := by ring
        rw [this, Int.add_mul_emod_self_left]
        have h9 : (-1 : Int) = ((m.channels.length : Int) - 1)
            + (m.channels.length : Int) * (-1) := by ring
        rw [h9, Int.add_mul_emod_self_left]
        exact Int.emod_eq_of_lt (by omega) (by omega)
      · rw [if_neg hneg]
        exact Int.emod_eq_of_lt (by omega) (by omega)
    simp only [update, if_neg h0]
    rcases hx :
        m.channels[(if m.activeTabIndex - 1 < 0
          then (m.channels.length : Int) - 1
          else m.activeTabIndex - 1).toNat]? with _ | ch
    · simp [hx, hmod]
    · simp only [hx]
      split <;> simp [hmod]

/-- C8 witness: Tab from index 2 of 3 channels wraps to 0. -/
theorem tab_wraps_witness :
    (update navModel2 (Event.key Key.tab)).1.activeTabIndex
        = (navModel2.activeTabIndex + 1) % ((navModel2.channels.length : Int)) :=
  (tab_wraps navModel2 (by decide) (by decide) (by decide)).1

/-! ### C6 — topology flattening and stable sort -/

/-- Helper: inserting a channel walks only past strictly smaller
positions, so filtering by any fixed position value either prepends the
inserted channel (when its position matches) or is unchanged. -/
theorem filter_orderedInsert_pos (x : Channel) (L : List Channel) (p : Int) :
    (L.orderedInsert posLE x).filter (fun c => c.position == p) =
      if x.position == p then
        x :: L.filter (fun c => c.position == p)
      else L.filter (fun c => c.position == p) := by
  induction L with
  | nil =>
    by_cases hxp : x.position = p <;>
      simp [List.orderedInsert, List.filter_cons, beq_iff_eq, hxp]
  | cons y ys ih =>
    by_cases hxy : posLE x y
    · by_cases hxp : x.position = p <;>
        simp [List.orderedInsert, hxy, List.filter_cons, beq_iff_eq, hxp]
    · have hlt : y.position < x.position := by
        simpa [posLE, not_le] using hxy
      by_cases hxp : x.position = p
      · have hyp : ¬ y.position = p := by omega
        simp [List.orderedInsert, hxy, List.filter_cons, beq_iff_eq, hxp,
          hyp, ih]
      · simp only [List.orderedInsert, if_neg hxy, List.filter_cons,
          beq_iff_eq, hxp, if_false] at ih ⊢
        simp [ih]

/-- Helper: the stable sort used on the channel list preserves, for each
position value, the original relative order of the channels with that
position (this is exactly stability). -/
theorem filter_sortChannels (l : List Channel) (p : Int) :
    (sortChannels l).filter (fun c => c.position == p)
        = l.filter (fun c => c.position == p) := by
  induction l with
  | nil => rfl
  | cons x xs ih =>
    show ((List.insertionSort posLE xs).orderedInsert posLE x).filter
        (fun c => c.position == p) = _
    rw [filter_orderedInsert_pos]
    by_cases hxp : x.position = p
    · simp [hxp, sortChannels] at ih ⊢
      simp [List.filter, ih]
    · simp [hxp, sortChannels] at ih ⊢
      simp [List.filter, hxp, ih]

/-- Helper: the channel list installed by a topology event is the stable
sort of the previous list concatenated with the flattened categories. -/
theorem update_initialData_channels (m : Model) (cats : List ChannelCategory) :
    (update m (Event.initialDataLoaded cats)).1.channels
        = sortChannels (m.channels ++ flattenCats cats) := by
  rcases hs : sortChannels (m.channels ++ flattenCats cats) with _ | ⟨c0, rest⟩ <;>
    simp [update, hs]

/-- Channel `posA` of the spec's flattening example (position 2). -/
def chanA : Channel := { id := 11, name := "a", categoryID := 1, position := 2 }

/-- Channel `posB` of the spec's flattening example (position 1). -/
def chanB : Channel := { id := 12, name := "b", categoryID := 1, position := 1 }

/-- Channel `posC` of the spec's flattening example (position 0). -/
def chanC : Channel := { id := 13, name := "c", categoryID := 2, position := 0 }

/-- Category `{pos:1, channels:[posA, posB]}` of the spec's example. -/
def exCatOne : ChannelCategory :=
  { id := 1, name := "one", position := 1, channels := [chanA, chanB] }

/-- Category `{pos:0, channels:[posC]}` of the spec's example. -/
def exCatTwo : ChannelCategory :=
  { id := 2, name := "two", position := 0, channels := [chanC] }

/-- C6: from a state with no channels yet, a topology event installs a
channel list that is sorted by ascending position, is a permutation of
the concatenation of the categories' channel lists in received order,
and is stable (for each position value the original relative order is
kept); on the spec's concrete two-category example the result is
`[posC, posB, posA]`. -/
theorem topology_stable_sort (m : Model) (cats : List ChannelCategory)
    (h : m.channels = []) :
    ((update m (Event.initialDataLoaded cats)).1.channels).Pairwise posLE ∧
    List.Perm ((update m (Event.initialDataLoaded cats)).1.channels)
      (flattenCats cats) ∧
    (∀ p : Int,
      ((update m (Event.initialDataLoaded cats)).1.channels).filter
          (fun c => c.position == p)
        = (flattenCats cats).filter (fun c => c.position == p)) ∧
    (update initialModel
        (Event.initialDataLoaded [exCatOne, exCatTwo])).1.channels
      = [chanC, chanB, chanA] := by
  rw [update_initialData_channels, h, List.nil_append]
  refine ⟨List.sorted_insertionSort posLE _, List.perm_insertionSort posLE _,
    fun p => filter_sortChannels _ p, by decide⟩

/-- C6 witness: the spec's two-category example flattens and stably
sorts to `[posC, posB, posA]`. -/
theorem topology_stable_sort_witness :
    (update initialModel
        (Event.initialDataLoaded [exCatOne, exCatTwo])).1.channels
      = [chanC, chanB, chanA] :=
  (topology_stable_sort initialModel [] rfl).2.2.2

/-! ### Helper lemmas about which fields each event can touch -/

/-- Helper: no key event changes the view state. -/
theorem update_key_state (m : Model) (k : Key) :
    (update m (Event.key k)).1.state = m.state := by
  cases k with
  | ctrlC => rfl
  | esc => rfl
  | tab =>
    by_cases h0 : m.channels = []
    · simp [update, h0]
    · simp only [update, if_neg h0]
      rcases hx : m.channels[((m.activeTabIndex + 1).tmod
          (m.channels.length : Int)).toNat]? with _ | ch
      · simp [hx]
      · simp only [hx]
        split <;> rfl
  | shiftTab =>
    by_cases h0 : m.channels = []
    · simp [update, h0]
    · simp only [update, if_neg h0]
      rcases hx : m.channels[(if m.activeTabIndex - 1 < 0
          then (m.channels.length : Int) - 1
          else m.activeTabIndex - 1).toNat]? with _ | ch
      · simp [hx]
      · simp only [hx]
        split <;> rfl
  | enter input sendErr =>
    simp only [update]
    split
    · rcases hx : m.channels[m.activeTabIndex.toNat]? with _ | ch
      · simp [hx]
      · rcases sendErr with _ | e2 <;> simp [hx]
    · rfl
  | other => rfl

/-- Helper: no key event changes the message buffers. -/
theorem update_key_messages (m : Model) (k : Key) :
    (update m (Event.key k)).1.messages = m.messages := by
  cases k with
  | ctrlC => rfl
  | esc => rfl
  | tab =>
    by_cases h0 : m.channels = []
    · simp [update, h0]
    · simp only [update, if_neg h0]
      rcases hx : m.channels[((m.activeTabIndex + 1).tmod
          (m.channels.length : Int)).toNat]? with _ | ch
      · simp [hx]
      · simp only [hx]
        split <;> rfl
  | shiftTab =>
    by_cases h0 : m.channels = []
    · simp [update, h0]
    · simp only [update, if_neg h0]
      rcases hx : m.channels[(if m.activeTabIndex - 1 < 0
          then (m.channels.length : Int) - 1
          else m.activeTabIndex - 1).toNat]? with _ | ch
      · simp [hx]
      · simp only [hx]
        split <;> rfl
  | enter input sendErr =>
    simp only [update]
    split
    · rcases hx : m.channels[m.activeTabIndex.toNat]? with _ | ch
      · simp [hx]
      · rcases sendErr with _ | e2 <;> simp [hx]
    · rfl
  | other => rfl

/-- Helper: no websocket frame changes the view state. -/
theorem update_ws_state (m : Model) (f : WsFrame) :
    (update m (Event.ws f)).1.state = m.state := by
  rcases f with ⟨ev, pl⟩
  by_cases h1 : ev = "new_message"
  · cases pl <;> simp [update, h1, decodeMessage]
  · by_cases h2 : ev = "presence_update"
    · cases pl <;> simp [update, h1, h2, decodeUsers]
    · simp [update, h1, h2]

/-! ### C2 — the Error state and subsequent events -/

/-- A model sitting in the Error state after a websocket dial failure. -/
def cexErrModel : Model :=
  { state := ViewState.error
    err := some "websocket dial error"
    channels := []
    messages := fun _ => none
    onlineUsers := ∅
    activeTabIndex := 0 }

/-- C2 counterexample: from the Error state, a topology-loaded event
carrying one non-empty category moves the reducer to Chatting — the
`initialDataLoadedMsg` case sets `stateChatting` without checking the
current state, so Error is not terminal under that event. -/
theorem error_state_exit_cex :
    cexErrModel.state = ViewState.error ∧
    (update cexErrModel (Event.initialDataLoaded [exCatTwo])).1.state
        = ViewState.chatting := by
  exact ⟨rfl, rfl⟩

/-- C2 (amended): the Error state is preserved by every event other
than a topology-loaded one — history results, streamed frames, presence
updates, key input and further errors all leave the state at Error; a
topology-loaded event instead re-runs topology handling (reaching
Chatting when the flattened list is non-empty). -/
theorem error_state_terminal (m : Model) (e : Event)
    (h : m.state = ViewState.error)
    (hni : ∀ cats, e ≠ Event.initialDataLoaded cats) :
    (update m e).1.state = ViewState.error := by
  cases e with
  | initialDataLoaded cats => exact absurd rfl (hni cats)
  | historyLoaded cid msgs => simpa [update] using h
  | ws f => rw [update_ws_state]; exact h
  | key k => rw [update_key_state]; exact h
  | errOccurred e2 => simp [update]

/-- C2 witness: a history result delivered in the Error state leaves
the state at Error. -/
theorem error_state_terminal_witness :
    (update cexErrModel (Event.historyLoaded 1 [])).1.state
        = ViewState.error :=
  error_state_terminal cexErrModel (Event.historyLoaded 1 []) rfl
    (fun _ hh => Event.noConfusion hh)

/-! ### C1 — per-channel buffers and the history-replace step -/

/-- Sample message sitting in channel 1's buffer before a history load. -/
def msgA : Message :=
  { id := 41, channelID := 1, userID := 3, username := "alice"
    content := "hello", createdAt := 5, avatarURL := "" }

/-- A chatting model whose channel-1 buffer already holds `msgA`. -/
def cexBufModel : Model :=
  { state := ViewState.chatting
    err := none
    channels := [navChan1]
    messages := fun k => if k = 1 then some [msgA] else none
    onlineUsers := ∅
    activeTabIndex := 0 }

/-- C1 counterexample: with channel 1's buffer already created and
holding `msgA`, a history-loaded event for channel 1 carrying the empty
list replaces the buffer with `[]` — the previous value extended by
zero or more messages would have to start with `msgA`, so the buffer
was truncated, refuting the append-only claim for history loads. -/
theorem history_overwrite_cex :
    cexBufModel.messages 1 = some [msgA] ∧
    (update cexBufModel (Event.historyLoaded 1 [])).1.messages 1 = some [] ∧
    ¬ ∃ t, (update cexBufModel (Event.historyLoaded 1 [])).1.messages 1
        = some ([msgA] ++ t) := by
  refine ⟨rfl, rfl, ?_⟩
  rintro ⟨t, ht⟩
  rw [show (update cexBufModel (Event.historyLoaded 1 [])).1.messages 1
      = some [] from rfl] at ht
  simp at ht

/-- C1 (amended): once a channel's buffer exists, every reducer step
except a history-loaded event for that channel leaves the buffer equal
to its previous value extended by zero or more messages at the end; a
history-loaded event for the channel instead replaces the buffer
wholesale with the delivered history. -/
theorem messages_append_only (m : Model) (e : Event) (c : Int)
    (l : List Message) (hc : m.messages c = some l)
    (hnh : ∀ msgs, e ≠ Event.historyLoaded c msgs) :
    ∃ t, (update m e).1.messages c = some (l ++ t) := by
  cases e with
  | initialDataLoaded cats =>
    refine ⟨[], ?_⟩
    rcases hs : sortChannels (m.channels ++ flattenCats cats) with _ | ⟨c0, rest⟩ <;>
      simp [update, hs, hc]
  | historyLoaded cid msgs =>
    have hne : ¬ c = cid := fun hh => hnh msgs (by rw [hh])
    exact ⟨[], by simp [update, mapSet, hne, hc]⟩
  | ws f =>
    rcases f with ⟨ev, pl⟩
    by_cases h1 : ev = "new_message"
    · cases pl with
      | message nm =>
        by_cases h2 : nm.channelID = c
        · refine ⟨[nm], ?_⟩
          subst h2
          simp [update, h1, decodeMessage, mapSet, hc]
        · have h3 : ¬ c = nm.channelID := fun hh => h2 hh.symm
          exact ⟨[], by simp [update, h1, decodeMessage, mapSet, h3, hc]⟩
      | userList us => exact ⟨[], by simp [update, h1, decodeMessage, hc]⟩
      | undecodable => exact ⟨[], by simp [update, h1, decodeMessage, hc]⟩
    · by_cases h2 : ev = "presence_update"
      · cases pl <;>
          exact ⟨[], by simp [update, h1, h2, decodeUsers, hc]⟩
      · exact ⟨[], by simp [update, h1, h2, hc]⟩
  | key k =>
    exact ⟨[], by rw [update_key_messages]; simpa using hc⟩
  | errOccurred e2 =>
    exact ⟨[], by simpa [update] using hc⟩

/-- C1 witness: an error event leaves channel 1's existing buffer equal
to itself extended by zero messages. -/
theorem messages_append_only_witness :
    ∃ t, (update cexBufModel (Event.errOccurred "boom")).1.messages 1
        = some ([msgA] ++ t) :=
  messages_append_only cexBufModel (Event.errOccurred "boom") 1 [msgA] rfl
    (fun _ hh => Event.noConfusion hh)

end PrismaCLI
